import Mathlib

/-!
Shallow embedding of `src/main.py`, a FastAPI + SQLAlchemy/SQLite CRUD
service for shopping items.

The persistent table is modelled as a list of rows kept in rowid
(insertion) order; SQLite assigns a new `INTEGER PRIMARY KEY` as one more
than the largest rowid currently in the table, which `nextId` mirrors.
Each CRUD function takes the database state and returns its result paired
with the new state, mirroring the session that `get_db` hands to every
endpoint.  The API endpoints translate the storage result into an HTTP
response (404 with detail "Item not found" on absence), as in the Python
handlers.
-/

/-- Embeds the SQLAlchemy model `ShoppingItem`: columns `id` (integer
primary key), `name` (string), `quantity` (integer), `description`
(nullable string). -/
structure ShoppingItem where
  id : Int
  name : String
  quantity : Int
  description : Option String
deriving Repr, DecidableEq

/-- Embeds the pydantic schema `ShoppingItemCreate`: `name : str`,
`quantity : int`, `description : str | None = None`. -/
structure ShoppingItemCreate where
  name : String
  quantity : Int
  description : Option String := none
deriving Repr, DecidableEq

/-- The `shopping_items` table, rows in rowid order. -/
abbrev Db := List ShoppingItem

/-- Largest id currently stored (0 for an empty table), as used by
SQLite rowid assignment. -/
def maxId (db : Db) : Int :=
  db.foldr (fun r m => max r.id m) 0

/-- The id SQLite assigns to the next inserted row: one more than the
largest id currently in the table. -/
def nextId (db : Db) : Int := maxId db + 1

/-- `db.query(ShoppingItem).filter(ShoppingItem.id == item_id).first()`:
the first row whose id matches, or `none`. -/
def firstWithId (db : Db) (item_id : Int) : Option ShoppingItem :=
  match db with
  | [] => none
  | r :: rs => if r.id == item_id then some r else firstWithId rs item_id

/-- `get_shopping_item(db, item_id)`: reads the row, leaves the table
unchanged. -/
def get_shopping_item (db : Db) (item_id : Int) : Option ShoppingItem × Db :=
  (firstWithId db item_id, db)

/-- `get_shopping_items(db, skip, limit)`:
`db.query(ShoppingItem).offset(skip).limit(limit).all()`. -/
def get_shopping_items (db : Db) (skip : Nat) (limit : Nat) :
    List ShoppingItem × Db :=
  ((db.drop skip).take limit, db)

/-- `create_shopping_item(db, item)`: inserts a row built from the
payload, SQLite assigns `nextId db`, the row is appended in rowid
order, and the refreshed row is returned. -/
def create_shopping_item (db : Db) (item : ShoppingItemCreate) :
    ShoppingItem × Db :=
  (⟨nextId db, item.name, item.quantity, item.description⟩,
   db ++ [⟨nextId db, item.name, item.quantity, item.description⟩])

/-- Overwrite the three mutable fields of the first row whose id
matches, in place. -/
def updateFirst (db : Db) (item_id : Int) (item : ShoppingItemCreate) : Db :=
  match db with
  | [] => []
  | r :: rs =>
    if r.id == item_id then
      { r with name := item.name, quantity := item.quantity,
               description := item.description } :: rs
    else
      r :: updateFirst rs item_id item

/-- `update_shopping_item(db, item_id, item)`: if a matching row exists,
overwrite `name`, `quantity` and `description` and return the refreshed
row; otherwise return `none` with the table untouched. -/
def update_shopping_item (db : Db) (item_id : Int) (item : ShoppingItemCreate) :
    Option ShoppingItem × Db :=
  match firstWithId db item_id with
  | none => (none, db)
  | some r =>
    (some { r with name := item.name, quantity := item.quantity,
                   description := item.description },
     updateFirst db item_id item)

/-- Remove the first row whose id matches. -/
def eraseFirstId (db : Db) (item_id : Int) : Db :=
  match db with
  | [] => []
  | r :: rs => if r.id == item_id then rs else r :: eraseFirstId rs item_id

/-- `delete_shopping_item(db, item_id)`: if a matching row exists,
delete it and return its last stored values; otherwise return `none`
with the table untouched. -/
def delete_shopping_item (db : Db) (item_id : Int) : Option ShoppingItem × Db :=
  match firstWithId db item_id with
  | none => (none, db)
  | some r => (some r, eraseFirstId db item_id)

/-- HTTP outcome of an endpoint: a successful JSON body, or an
`HTTPException`-style error with status code and detail message. -/
inductive ApiResult (α : Type) where
  | ok (value : α)
  | httpError (status : Nat) (detail : String)
deriving Repr, DecidableEq

/-- Endpoint `POST /items/`. -/
def create_item (db : Db) (item : ShoppingItemCreate) :
    ApiResult ShoppingItem × Db :=
  (ApiResult.ok (create_shopping_item db item).1, (create_shopping_item db item).2)

/-- Endpoint `GET /items/`. -/
def read_items (db : Db) (skip : Nat) (limit : Nat) :
    ApiResult (List ShoppingItem) × Db :=
  (ApiResult.ok (get_shopping_items db skip limit).1,
   (get_shopping_items db skip limit).2)

/-- Endpoint `GET /items/{item_id}`: 404 "Item not found" on absence. -/
def read_item (db : Db) (item_id : Int) : ApiResult ShoppingItem × Db :=
  match (get_shopping_item db item_id).1 with
  | none => (ApiResult.httpError 404 "Item not found", (get_shopping_item db item_id).2)
  | some it => (ApiResult.ok it, (get_shopping_item db item_id).2)

/-- Endpoint `PUT /items/{item_id}`: 404 "Item not found" on absence. -/
def update_item (db : Db) (item_id : Int) (item : ShoppingItemCreate) :
    ApiResult ShoppingItem × Db :=
  match (update_shopping_item db item_id item).1 with
  | none => (ApiResult.httpError 404 "Item not found",
             (update_shopping_item db item_id item).2)
  | some it => (ApiResult.ok it, (update_shopping_item db item_id item).2)

/-- Endpoint `DELETE /items/{item_id}`: 404 "Item not found" on absence. -/
def delete_item (db : Db) (item_id : Int) : ApiResult ShoppingItem × Db :=
  match (delete_shopping_item db item_id).1 with
  | none => (ApiResult.httpError 404 "Item not found",
             (delete_shopping_item db item_id).2)
  | some it => (ApiResult.ok it, (delete_shopping_item db item_id).2)

/-- A raw JSON create request body before pydantic validation: each
field may be present or absent (for `description`, present may still
be the JSON value `null`). -/
structure RawCreatePayload where
  name : Option String
  quantity : Option Int
  description : Option (Option String)
deriving Repr, DecidableEq

/-- Pydantic validation of `ShoppingItemCreate`: `name` and `quantity`
are required (a body missing either is rejected with status 422 before
any storage call); `description` defaults to `None`. -/
def parseShoppingItemCreate (raw : RawCreatePayload) :
    Except Nat ShoppingItemCreate :=
  match raw.name, raw.quantity with
  | some n, some q => Except.ok ⟨n, q, raw.description.getD none⟩
  | _, _ => Except.error 422

/-- `POST /items/` including body validation: FastAPI rejects an
invalid body with 422 before `create_shopping_item` runs. -/
def handle_create_request (db : Db) (raw : RawCreatePayload) :
    ApiResult ShoppingItem × Db :=
  match parseShoppingItemCreate raw with
  | Except.error code => (ApiResult.httpError code "validation error", db)
  | Except.ok item => create_item db item

/-- Database states reachable from the empty table through the three
writing operations. -/
inductive Reachable : Db → Prop where
  | empty : Reachable []
  | create (db : Db) (p : ShoppingItemCreate) :
      Reachable db → Reachable (create_shopping_item db p).2
  | update (db : Db) (item_id : Int) (p : ShoppingItemCreate) :
      Reachable db → Reachable (update_shopping_item db item_id p).2
  | delete (db : Db) (item_id : Int) :
      Reachable db → Reachable (delete_shopping_item db item_id).2

/-- The rows are in strictly ascending id order. -/
def idsSorted (db : Db) : Prop :=
  (db.map (fun r => r.id)).Pairwise (· < ·)

/-! ### Helper lemmas -/

theorem mem_id_le_maxId (db : Db) (r : ShoppingItem) (hr : r ∈ db) :
    r.id ≤ maxId db := by
  induction db with
  | nil => cases hr
  | cons a tl ih =>
    have hmax : maxId (a :: tl) = max a.id (maxId tl) := rfl
    rw [hmax]
    rcases List.mem_cons.mp hr with h | h
    · subst h; exact le_max_left _ _
    · exact le_trans (ih h) (le_max_right _ _)

theorem firstWithId_eq_none (db : Db) (k : Int) (h : ∀ r ∈ db, r.id ≠ k) :
    firstWithId db k = none := by
  induction db with
  | nil => rfl
  | cons a tl ih =>
    have ha : (a.id == k) = false := by simpa using h a (by simp)
    simpa [firstWithId, ha] using ih (fun r hr => h r (by simp [hr]))

theorem firstWithId_append_singleton (db : Db) (it : ShoppingItem)
    (h : ∀ r ∈ db, r.id ≠ it.id) :
    firstWithId (db ++ [it]) it.id = some it := by
  induction db with
  | nil => simp [firstWithId]
  | cons a tl ih =>
    have ha : (a.id == it.id) = false := by simpa using h a (by simp)
    simpa [firstWithId, ha] using ih (fun r hr => h r (by simp [hr]))

theorem firstWithId_id (db : Db) (k : Int) (r : ShoppingItem)
    (h : firstWithId db k = some r) : r.id = k := by
  induction db with
  | nil => cases h
  | cons a tl ih =>
    by_cases ha : (a.id == k) = true
    · have har : a = r := by simpa [firstWithId, ha] using h
      subst har; simpa using ha
    · exact ih (by simpa [firstWithId, ha] using h)

theorem map_id_updateFirst (db : Db) (k : Int) (p : ShoppingItemCreate) :
    (updateFirst db k p).map (fun r => r.id) = db.map (fun r => r.id) := by
  induction db with
  | nil => rfl
  | cons a tl ih =>
    by_cases ha : (a.id == k) = true
    · simp [updateFirst, ha]
    · simp [updateFirst, ha, ih]

theorem firstWithId_updateFirst (db : Db) (k : Int) (p : ShoppingItemCreate)
    (r : ShoppingItem) (h : firstWithId db k = some r) :
    firstWithId (updateFirst db k p) k
      = some ⟨k, p.name, p.quantity, p.description⟩ := by
  induction db with
  | nil => cases h
  | cons a tl ih =>
    by_cases ha : (a.id == k) = true
    · obtain ⟨aid, an, aq, ad⟩ := a
      have hak : aid = k := by simpa using ha
      subst hak
      simp [updateFirst, firstWithId]
    · simp only [firstWithId, ha, if_false] at h
      simpa [updateFirst, firstWithId, ha] using ih h

theorem eraseFirstId_sublist (db : Db) (k : Int) :
    (eraseFirstId db k).Sublist db := by
  induction db with
  | nil => simp [eraseFirstId]
  | cons a tl ih =>
    by_cases ha : (a.id == k) = true
    · simp only [eraseFirstId, ha, if_true]
      exact (List.Sublist.refl tl).cons a
    · simpa [eraseFirstId, ha] using ih.cons₂ a

theorem filter_updateFirst (db : Db) (k : Int) (p : ShoppingItemCreate) :
    (updateFirst db k p).filter (fun r => r.id != k)
      = db.filter (fun r => r.id != k) := by
  induction db with
  | nil => rfl
  | cons a tl ih =>
    by_cases ha : a.id = k
    · have hb : (a.id == k) = true := by simpa using ha
      have h2 : ((⟨a.id, p.name, p.quantity, p.description⟩ : ShoppingItem).id != k)
          = false := by simp [bne, hb]
      have h3 : (a.id != k) = false := by simp [bne, hb]
      obtain ⟨aid, an, aq, ad⟩ := a
      simp only at hb h2 h3
      simp [updateFirst, hb, List.filter_cons, h2, h3]
    · have hb : (a.id == k) = false := by simpa using ha
      have h3 : (a.id != k) = true := by simp [bne, hb]
      simp [updateFirst, hb, List.filter_cons, h3, ih]

theorem filter_eraseFirstId (db : Db) (k : Int) :
    (eraseFirstId db k).filter (fun r => r.id != k)
      = db.filter (fun r => r.id != k) := by
  induction db with
  | nil => rfl
  | cons a tl ih =>
    by_cases ha : a.id = k
    · have hb : (a.id == k) = true := by simpa using ha
      have h3 : (a.id != k) = false := by simp [bne, hb]
      simp [eraseFirstId, hb, List.filter_cons, h3]
    · have hb : (a.id == k) = false := by simpa using ha
      have h3 : (a.id != k) = true := by simp [bne, hb]
      simp [eraseFirstId, hb, List.filter_cons, h3, ih]

theorem idsSorted_create (db : Db) (p : ShoppingItemCreate)
    (h : idsSorted db) : idsSorted (create_shopping_item db p).2 := by
  unfold idsSorted create_shopping_item at *
  simp only [List.map_append, List.map_cons, List.map_nil]
  rw [List.pairwise_append]
  refine ⟨h, by simp, ?_⟩
  intro a ha b hb
  simp only [List.mem_cons, List.not_mem_nil, or_false] at hb
  subst hb
  rcases List.mem_map.mp ha with ⟨r, hr, rfl⟩
  have hle := mem_id_le_maxId db r hr
  unfold nextId
  omega

theorem idsSorted_update (db : Db) (item_id : Int) (p : ShoppingItemCreate)
    (h : idsSorted db) : idsSorted (update_shopping_item db item_id p).2 := by
  cases hf : firstWithId db item_id with
  | none => simpa [update_shopping_item, hf] using h
  | some r =>
    unfold idsSorted at *
    simpa [update_shopping_item, hf, map_id_updateFirst] using h

theorem idsSorted_delete (db : Db) (item_id : Int)
    (h : idsSorted db) : idsSorted (delete_shopping_item db item_id).2 := by
  cases hf : firstWithId db item_id with
  | none => simpa [delete_shopping_item, hf] using h
  | some r =>
    have hsub := (eraseFirstId_sublist db item_id).map (fun r => r.id)
    unfold idsSorted at *
    simpa [delete_shopping_item, hf] using h.sublist hsub

theorem idsSorted_of_reachable (db : Db) (h : Reachable db) : idsSorted db := by
  induction h with
  | empty => simp [idsSorted]
  | create db p _ ih => exact idsSorted_create db p ih
  | update db item_id p _ ih => exact idsSorted_update db item_id p ih
  | delete db item_id _ ih => exact idsSorted_delete db item_id ih

theorem firstWithId_eraseFirstId (db : Db) (k : Int) (h : idsSorted db) :
    firstWithId (eraseFirstId db k) k = none := by
  induction db with
  | nil => rfl
  | cons a tl ih =>
    have hsplit : (∀ b ∈ tl.map (fun r => r.id), a.id < b) ∧ idsSorted tl := by
      unfold idsSorted at h
      rw [List.map_cons, List.pairwise_cons] at h
      exact h
    by_cases ha : (a.id == k) = true
    · have hak : a.id = k := by simpa using ha
      have htl : firstWithId tl k = none := by
        apply firstWithId_eq_none
        intro r hr
        have := hsplit.1 r.id (List.mem_map.mpr ⟨r, hr, rfl⟩)
        omega
      simpa [eraseFirstId, ha] using htl
    · simpa [eraseFirstId, firstWithId, ha] using ih hsplit.2

theorem fresh_id_not_mem (db : Db) (p : ShoppingItemCreate) :
    ∀ r ∈ db, r.id ≠ (create_shopping_item db p).1.id := by
  intro r hr
  have hle := mem_id_le_maxId db r hr
  simp only [create_shopping_item, nextId]
  omega

theorem update_result_eq (db : Db) (item_id : Int) (p : ShoppingItemCreate)
    (r : ShoppingItem) (h : firstWithId db item_id = some r) :
    (update_shopping_item db item_id p).1
        = some ⟨item_id, p.name, p.quantity, p.description⟩ := by
  have hid : r.id = item_id := firstWithId_id db item_id r h
  obtain ⟨rid, rn, rq, rd⟩ := r
  simp only at hid
  subst hid
  simp [update_shopping_item, h]

/-! ### Claim theorems -/

/-- Claim C1: for every table state and every valid create payload,
`create` returns the payload fields together with the freshly assigned
id, a subsequent `get` on that id returns exactly that record with the
table unchanged, and a payload built without a description carries
`none`, stored and returned as null. -/
theorem create_get_roundtrip (db : Db) (p : ShoppingItemCreate) :
    (create_shopping_item db p).1
        = ⟨nextId db, p.name, p.quantity, p.description⟩ ∧
    get_shopping_item (create_shopping_item db p).2 (create_shopping_item db p).1.id
        = (some (create_shopping_item db p).1, (create_shopping_item db p).2) ∧
    parseShoppingItemCreate ⟨some p.name, some p.quantity, none⟩
        = Except.ok ⟨p.name, p.quantity, none⟩ ∧
    parseShoppingItemCreate ⟨some p.name, some p.quantity, some none⟩
        = Except.ok ⟨p.name, p.quantity, none⟩ := by
  refine ⟨rfl, ?_, rfl, rfl⟩
  have hfind : firstWithId (create_shopping_item db p).2 (create_shopping_item db p).1.id
      = some (create_shopping_item db p).1 :=
    firstWithId_append_singleton db (create_shopping_item db p).1
      (fresh_id_not_mem db p)
  simp [get_shopping_item, hfind]

/-- Claim C2: on every reachable table state and all non-negative skip
and limit, `list` returns the rows after the first `skip` of them, at
most `limit` many, in strictly ascending id order, leaving the table
unchanged; on the empty table `list(0,100)` is empty. -/
theorem list_skip_limit_spec (db : Db) (skip : Nat) (limit : Nat)
    (h : Reachable db) :
    get_shopping_items db skip limit = ((db.drop skip).take limit, db) ∧
    (get_shopping_items db skip limit).1.length ≤ limit ∧
    ((get_shopping_items db skip limit).1.map (fun r => r.id)).Pairwise (· < ·) ∧
    get_shopping_items ([] : Db) 0 100 = ([], []) := by
  refine ⟨rfl, ?_, ?_, rfl⟩
  · exact List.length_take_le limit (db.drop skip)
  · have hs := idsSorted_of_reachable db h
    have hsub : ((db.drop skip).take limit).Sublist db :=
      (List.take_sublist _ _).trans (List.drop_sublist _ _)
    exact hs.sublist (hsub.map (fun r => r.id))

/-- Witness for C2 at the empty table with the default skip and limit. -/
theorem list_skip_limit_spec_witness :
    get_shopping_items ([] : Db) 0 100 = (([] : Db), ([] : Db)) :=
  (list_skip_limit_spec [] 0 100 Reachable.empty).1

/-- Claim C3: for an id not present in the table, `get`, `update` and
`delete` all return absent and leave the table unchanged, and the three
id-addressed endpoints answer 404 "Item not found". -/
theorem absent_id_noop (db : Db) (item_id : Int) (p : ShoppingItemCreate)
    (h : firstWithId db item_id = none) :
    get_shopping_item db item_id = (none, db) ∧
    update_shopping_item db item_id p = (none, db) ∧
    delete_shopping_item db item_id = (none, db) ∧
    read_item db item_id = (ApiResult.httpError 404 "Item not found", db) ∧
    update_item db item_id p = (ApiResult.httpError 404 "Item not found", db) ∧
    delete_item db item_id = (ApiResult.httpError 404 "Item not found", db) := by
  refine ⟨?_, ?_, ?_, ?_, ?_, ?_⟩ <;>
    simp [get_shopping_item, update_shopping_item, delete_shopping_item,
          read_item, update_item, delete_item, h]

/-- Witness for C3: id 1 on the empty table. -/
theorem absent_id_noop_witness :
    get_shopping_item ([] : Db) 1 = (none, ([] : Db)) :=
  (absent_id_noop [] 1 ⟨"a", 1, none⟩ rfl).1

/-- Claim C4: updating an existing id overwrites name, quantity and
description wholesale, and a subsequent `get` returns exactly the new
payload under the unchanged id; no prior field survives. -/
theorem update_overwrites (db : Db) (item_id : Int) (p : ShoppingItemCreate)
    (r : ShoppingItem) (h : firstWithId db item_id = some r) :
    (update_shopping_item db item_id p).1
        = some ⟨item_id, p.name, p.quantity, p.description⟩ ∧
    (get_shopping_item (update_shopping_item db item_id p).2 item_id).1
        = some ⟨item_id, p.name, p.quantity, p.description⟩ := by
  constructor
  · exact update_result_eq db item_id p r h
  · simpa [get_shopping_item, update_shopping_item, h] using
      firstWithId_updateFirst db item_id p r h

/-- Witness for C4: overwriting item 1 of a one-row table. -/
theorem update_overwrites_witness :
    (update_shopping_item [⟨1, "Milk", 2, none⟩] 1 ⟨"Milk", 4, some "2%"⟩).1
        = some ⟨1, "Milk", 4, some "2%"⟩ :=
  (update_overwrites [⟨1, "Milk", 2, none⟩] 1 ⟨"Milk", 4, some "2%"⟩
      ⟨1, "Milk", 2, none⟩ (by decide)).1

/-- Claim C5: on a reachable table, deleting an existing id returns the
record exactly as `get` saw it immediately before, and a subsequent
`get` on that id returns absent. -/
theorem delete_then_get (db : Db) (item_id : Int) (r : ShoppingItem)
    (hreach : Reachable db) (h : firstWithId db item_id = some r) :
    (delete_shopping_item db item_id).1 = (get_shopping_item db item_id).1 ∧
    (delete_shopping_item db item_id).1 = some r ∧
    (get_shopping_item (delete_shopping_item db item_id).2 item_id).1 = none := by
  refine ⟨?_, ?_, ?_⟩
  · simp [delete_shopping_item, get_shopping_item, h]
  · simp [delete_shopping_item, h]
  · have hs := idsSorted_of_reachable db hreach
    simpa [delete_shopping_item, h, get_shopping_item] using
      firstWithId_eraseFirstId db item_id hs

/-- Witness for C5: create one item, delete it, get it back absent. -/
theorem delete_then_get_witness :
    (get_shopping_item
        (delete_shopping_item (create_shopping_item [] ⟨"Milk", 2, none⟩).2 1).2
        1).1 = none :=
  (delete_then_get (create_shopping_item [] ⟨"Milk", 2, none⟩).2 1
      ⟨1, "Milk", 2, none⟩
      (Reachable.create [] ⟨"Milk", 2, none⟩ Reachable.empty)
      (by decide)).2.2

/-- Counterexample to claim C6 as stated: ids can be reused after a
deletion.  Create two items (ids 1 and 2), delete item 2, create again:
SQLite assigns max-rowid-plus-one, so the new record receives id 2,
the id of the deleted record. -/
theorem id_reuse_counterexample :
    (create_shopping_item (create_shopping_item [] ⟨"a", 1, none⟩).2
        ⟨"b", 1, none⟩).1.id = 2 ∧
    (create_shopping_item
        (delete_shopping_item
          (create_shopping_item (create_shopping_item [] ⟨"a", 1, none⟩).2
            ⟨"b", 1, none⟩).2 2).2
        ⟨"c", 1, none⟩).1.id = 2 := by
  exact ⟨by decide, by decide⟩

/-- Amended C6: on every reachable table the stored ids are strictly
increasing (hence pairwise distinct), a freshly created record never
collides with a currently stored id, and update never changes any id;
but an id may be assigned again after the record holding the largest id
is deleted. -/
theorem ids_unique_and_immutable (db : Db) (item_id : Int)
    (p : ShoppingItemCreate) (h : Reachable db) :
    (db.map (fun r => r.id)).Pairwise (· < ·) ∧
    (create_shopping_item db p).1.id ∉ db.map (fun r => r.id) ∧
    (update_shopping_item db item_id p).2.map (fun r => r.id)
        = db.map (fun r => r.id) := by
  refine ⟨idsSorted_of_reachable db h, ?_, ?_⟩
  · intro hmem
    rcases List.mem_map.mp hmem with ⟨r, hr, he⟩
    exact fresh_id_not_mem db p r hr he
  · cases hf : firstWithId db item_id with
    | none => simp [update_shopping_item, hf]
    | some r => simp [update_shopping_item, hf, map_id_updateFirst]

/-- Witness for the amended C6 on a one-row reachable table. -/
theorem ids_unique_and_immutable_witness :
    (create_shopping_item (create_shopping_item [] ⟨"Milk", 2, none⟩).2
        ⟨"a", 1, none⟩).1.id
      ∉ (create_shopping_item [] ⟨"Milk", 2, none⟩).2.map (fun r => r.id) :=
  (ids_unique_and_immutable (create_shopping_item [] ⟨"Milk", 2, none⟩).2 1
      ⟨"a", 1, none⟩
      (Reachable.create [] ⟨"Milk", 2, none⟩ Reachable.empty)).2.1

/-- Counterexample to claim C7 as stated: a create request that leaves
`quantity` unspecified does not produce a record with quantity 1; the
request schema requires `quantity`, so the body is rejected with 422
before any storage call and no record is created. -/
theorem quantity_default_counterexample :
    handle_create_request [] ⟨some "Milk", none, none⟩
      = (ApiResult.httpError 422 "validation error", ([] : Db)) := rfl

/-- Amended C7: a create request that leaves `quantity` unspecified is
rejected with status 422 before any storage call, leaving the table
unchanged; the storage-layer column default of 1 is never exercised
through the API, and `name` remains required as well. -/
theorem quantity_omitted_rejected (db : Db) (raw : RawCreatePayload)
    (h : raw.quantity = none) :
    handle_create_request db raw
      = (ApiResult.httpError 422 "validation error", db) := by
  obtain ⟨n, q, d⟩ := raw
  simp only at h
  subst h
  cases n <;> rfl

/-- Witness for the amended C7. -/
theorem quantity_omitted_rejected_witness :
    handle_create_request [] ⟨some "Eggs", none, none⟩
      = (ApiResult.httpError 422 "validation error", ([] : Db)) :=
  quantity_omitted_rejected [] ⟨some "Eggs", none, none⟩ rfl

/-- Claim C8: `get` is idempotent and read-only: two consecutive calls
with no intervening write return identical results, and neither call
changes the table. -/
theorem get_idempotent (db : Db) (item_id : Int) :
    (get_shopping_item (get_shopping_item db item_id).2 item_id).1
        = (get_shopping_item db item_id).1 ∧
    (get_shopping_item db item_id).2 = db ∧
    (get_shopping_item (get_shopping_item db item_id).2 item_id).2 = db :=
  ⟨rfl, rfl, rfl⟩

/-- Claim C9: frame conditions.  Update and delete leave every row
whose id differs from the target exactly as it was (same fields, same
relative order), and create only appends its new row after the
pre-existing rows. -/
theorem crud_frame (db : Db) (item_id : Int) (p : ShoppingItemCreate) :
    (update_shopping_item db item_id p).2.filter (fun r => r.id != item_id)
        = db.filter (fun r => r.id != item_id) ∧
    (delete_shopping_item db item_id).2.filter (fun r => r.id != item_id)
        = db.filter (fun r => r.id != item_id) ∧
    (create_shopping_item db p).2 = db ++ [(create_shopping_item db p).1] := by
  refine ⟨?_, ?_, rfl⟩
  · cases hf : firstWithId db item_id with
    | none => simp [update_shopping_item, hf]
    | some r => simp [update_shopping_item, hf, filter_updateFirst]
  · cases hf : firstWithId db item_id with
    | none => simp [delete_shopping_item, hf]
    | some r => simp [delete_shopping_item, hf, filter_eraseFirstId]

/-- Claim C10: quantity is range-unchecked.  Any integer quantity,
zero or negative included, passes validation, is stored verbatim by
create, and is stored verbatim by update on an existing id. -/
theorem quantity_unchecked (db : Db) (n : String) (q : Int) (d : Option String) :
    parseShoppingItemCreate ⟨some n, some q, some d⟩ = Except.ok ⟨n, q, d⟩ ∧
    (create_shopping_item db ⟨n, q, d⟩).1.quantity = q ∧
    ∀ item_id r, firstWithId db item_id = some r →
      (update_shopping_item db item_id ⟨n, q, d⟩).1 = some ⟨item_id, n, q, d⟩ := by
  refine ⟨rfl, rfl, ?_⟩
  intro item_id r h
  exact update_result_eq db item_id ⟨n, q, d⟩ r h

/-- Witness for C10: a negative quantity stored verbatim by update. -/
theorem quantity_unchecked_witness :
    (update_shopping_item [⟨1, "Milk", 2, none⟩] 1 ⟨"x", -5, none⟩).1
        = some ⟨1, "x", -5, none⟩ :=
  (quantity_unchecked [⟨1, "Milk", 2, none⟩] "x" (-5) none).2.2 1
    ⟨1, "Milk", 2, none⟩ (by decide)
